import Mathlib

/-!
Shallow embedding of the weather application's computational core
(`src/features/weather/api.ts` and the geocoding module): the forecast
temperature aggregator `computeForecastTemperatureStats`, the
current-conditions normalizer `getWeatherSummary`, the forecast-day
normalizer `getDailyForecast`, and the geocoding normalizer `geocode`.

JavaScript numbers are embedded as `JSNum`: the non-finite values NaN,
Infinity and -Infinity, the `undefined` value (which behaves like NaN in
comparisons and fails `Number.isFinite`), and finite values carried as
exact rationals.  All arithmetic the aggregator performs on finite values
(addition, halving, one final division by the day count) is embedded
exactly in `ℚ`.
-/

namespace WeatherApp

/-- A JavaScript number (or `undefined` read from an untyped payload):
NaN, +Infinity, -Infinity, undefined, or a finite value as a rational. -/
inductive JSNum where
  | nan
  | inf
  | ninf
  | undef
  | fin (q : ℚ)
deriving DecidableEq

/-- `Number.isFinite`: true exactly on finite numbers (false on NaN,
±Infinity and `undefined`). -/
def JSNum.isFinite : JSNum → Bool
  | .fin _ => true
  | _ => false

/-- The value of `Number.isFinite(x) ? x : 0` as a rational. -/
def finiteOr0 : JSNum → ℚ
  | .fin q => q
  | _ => 0

/-- JavaScript `>` on numbers: any comparison involving NaN (or
`undefined`, which coerces to NaN) is false; Infinity is greater than
everything but itself; -Infinity is below everything but itself. -/
def jsGt : JSNum → JSNum → Bool
  | .nan, _ => false
  | _, .nan => false
  | .undef, _ => false
  | _, .undef => false
  | .inf, .inf => false
  | .inf, _ => true
  | _, .inf => false
  | .ninf, _ => false
  | _, .ninf => true
  | .fin a, .fin b => decide (b < a)

/-- JavaScript `<` on numbers: `a < b` holds exactly when `b > a`. -/
def jsLt (a b : JSNum) : Bool := jsGt b a

/-- `DailyBlock` from `api.ts`: the daytime/nighttime sub-record of a
normalized forecast day. -/
structure DailyBlock where
  description : String
  iconUrl : String
  uvIndex : JSNum
  precipPercent : JSNum
  windKph : JSNum
  windGustKph : JSNum
  windDirCardinal : String
  windDirDegrees : JSNum
  cloudCover : Option JSNum
  humidity : Option JSNum
deriving DecidableEq

/-- `displayDate` component of `DailyForecast`. -/
structure DisplayDate where
  year : JSNum
  month : JSNum
  day : JSNum
deriving DecidableEq

/-- `DailyForecast` from `api.ts`: one normalized forecast day.
`dateISO` is a total (non-optional) string field. -/
structure DailyForecast where
  dateISO : String
  displayDate : DisplayDate
  maxTempC : JSNum
  minTempC : JSNum
  feelsLikeMaxC : Option JSNum
  feelsLikeMinC : Option JSNum
  sunriseTime : Option String
  sunsetTime : Option String
  daytime : DailyBlock
  nighttime : DailyBlock
deriving DecidableEq

/-- `weatherCondition` component of `WeatherSummary`. -/
structure SummaryCondition where
  type : String
  description : String
  iconUrl : String
deriving DecidableEq

/-- `wind` component of `WeatherSummary`. -/
structure SummaryWind where
  directionDegrees : JSNum
  directionCardinal : String
  speedKph : JSNum
  gustKph : JSNum
deriving DecidableEq

/-- `WeatherSummary` from `api.ts`.  `currentTime` is copied from the
payload without a default (`currentTime: data.currentTime`), so at
runtime it can hold `undefined` even though the TypeScript type says
`string`; it is embedded as `Option String` with `none` standing for the
propagated `undefined`. -/
structure WeatherSummary where
  currentTime : Option String
  timeZone : String
  isDaytime : Bool
  weatherCondition : SummaryCondition
  temperatureC : JSNum
  feelsLikeC : JSNum
  uvIndex : JSNum
  wind : SummaryWind
  thunderstormProbability : JSNum
  maxTempC : JSNum
  minTempC : JSNum
  visibilityKm : JSNum
deriving DecidableEq

/-- `WeatherWithForecast` from `api.ts`. -/
structure WeatherWithForecast where
  current : WeatherSummary
  forecast : List DailyForecast

/-- `ForecastTemperatureStats` from `api.ts`.  The two ISO bounds are
`string | null` in the source, embedded as `Option String`; the numeric
outputs are finite by the final `Number.isFinite` guards, embedded as
exact rationals. -/
structure ForecastTemperatureStats where
  periodDays : ℕ
  periodStartISO : Option String
  periodEndISO : Option String
  minTempC : ℚ
  maxTempC : ℚ
  avgTempC : ℚ
deriving DecidableEq

/-- The argument of `computeForecastTemperatureStats`:
`WeatherWithForecast | DailyForecast[]`. -/
inductive StatsInput where
  | list (xs : List DailyForecast)
  | wrapped (w : WeatherWithForecast)

/-- The loop state of `computeForecastTemperatureStats`: `maxTemp`
starts at `-Infinity`, `minTemp` at `Infinity`, `avgAccumulator` at 0
(the accumulator only ever adds finite values, embedded exactly). -/
structure StatsLoopState where
  maxTemp : JSNum
  minTemp : JSNum
  avgAccumulator : ℚ

/-- One iteration of the `for (const day of forecast)` loop of
`computeForecastTemperatureStats`: substitute 0 for a non-finite
`maxTempC`/`minTempC`, update the running max and min with the JS
comparisons, and add `(dayMax + dayMin) / 2` to the accumulator. -/
def statsStep (s : StatsLoopState) (day : DailyForecast) : StatsLoopState :=
  let dayMax : ℚ := finiteOr0 day.maxTempC
  let dayMin : ℚ := finiteOr0 day.minTempC
  { maxTemp := if jsGt (.fin dayMax) s.maxTemp then .fin dayMax else s.maxTemp
    minTemp := if jsLt (.fin dayMin) s.minTemp then .fin dayMin else s.minTemp
    avgAccumulator := s.avgAccumulator + (dayMax + dayMin) / 2 }

/-- `computeForecastTemperatureStats` from `api.ts`: unwrap the overload
(`Array.isArray(input) ? input : input?.forecast ?? []`), return the
all-zero / null-bounds sentinel on an empty list, otherwise run the
accumulation loop, divide the accumulator once by the length, take the
period bounds from the first and last elements as provided, and guard
each numeric output with `Number.isFinite(x) ? x : 0`. -/
def computeForecastTemperatureStats (input : StatsInput) : ForecastTemperatureStats :=
  let forecast : List DailyForecast :=
    match input with
    | .list xs => xs
    | .wrapped w => w.forecast
  if forecast.length = 0 then
    { periodDays := 0
      periodStartISO := none
      periodEndISO := none
      minTempC := 0
      maxTempC := 0
      avgTempC := 0 }
  else
    let s := forecast.foldl statsStep ⟨.ninf, .inf, 0⟩
    let avgTemp : JSNum := .fin (s.avgAccumulator / (forecast.length : ℚ))
    { periodDays := forecast.length
      periodStartISO := forecast.head?.map (fun d => d.dateISO)
      periodEndISO := forecast.getLast?.map (fun d => d.dateISO)
      minTempC := finiteOr0 s.minTemp
      maxTempC := finiteOr0 s.maxTemp
      avgTempC := finiteOr0 avgTemp }

/-- The substituted daily maximum `dayMax` of a day, as the aggregator
computes it. -/
def dayMaxQ (d : DailyForecast) : ℚ := finiteOr0 d.maxTempC

/-- The substituted daily minimum `dayMin` of a day. -/
def dayMinQ (d : DailyForecast) : ℚ := finiteOr0 d.minTempC

/-- The per-day midpoint `(dayMax + dayMin) / 2` added to the average
accumulator. -/
def dayMidQ (d : DailyForecast) : ℚ := (dayMaxQ d + dayMinQ d) / 2

/-- Test fixture: an all-default daytime/nighttime block. -/
def emptyDailyBlock : DailyBlock :=
  { description := "Unknown"
    iconUrl := ""
    uvIndex := .fin 0
    precipPercent := .fin 0
    windKph := .fin 0
    windGustKph := .fin 0
    windDirCardinal := "UNKNOWN"
    windDirDegrees := .fin 0
    cloudCover := none
    humidity := none }

/-- Test fixture: a forecast day with the given date and temperatures,
all other fields defaulted. -/
def mkDay (iso : String) (mx mn : JSNum) : DailyForecast :=
  { dateISO := iso
    displayDate := { year := .fin 2025, month := .fin 10, day := .fin 24 }
    maxTempC := mx
    minTempC := mn
    feelsLikeMaxC := none
    feelsLikeMinC := none
    sunriseTime := none
    sunsetTime := none
    daytime := emptyDailyBlock
    nighttime := emptyDailyBlock }

/-- Errors thrown by the weather API wrappers: a non-success HTTP status
(`Network error: ...`) or a successfully fetched payload missing the
required condition object (`Invalid response from Weather API`). -/
inductive ApiError where
  | networkError
  | invalidResponse
deriving DecidableEq

/-- `description` sub-object of a raw weather condition. -/
structure RawDescription where
  text : Option String

/-- Raw `weatherCondition` object as read from either weather payload. -/
structure RawWeatherCondition where
  type : Option String
  description : Option RawDescription
  iconBaseUri : Option String

/-- Raw `{degrees}` wrapper used by the temperature fields. -/
structure RawDegrees where
  degrees : Option JSNum

/-- Raw `wind.direction` object. -/
structure RawWindDirection where
  degrees : Option JSNum
  cardinal : Option String

/-- Raw `{value}` wrapper used by `wind.speed` and `wind.gust`. -/
structure RawSpeed where
  value : Option JSNum

/-- Raw `wind` object. -/
structure RawWind where
  direction : Option RawWindDirection
  speed : Option RawSpeed
  gust : Option RawSpeed

/-- Raw `timeZone` object. -/
structure RawTimeZone where
  id : Option String

/-- Raw `currentConditionsHistory` object. -/
structure RawConditionsHistory where
  maxTemperature : Option RawDegrees
  minTemperature : Option RawDegrees

/-- Raw `visibility` object. -/
structure RawVisibility where
  distance : Option JSNum

/-- Raw current-conditions payload: every path the normalizer reads is
optional.  `isDaytime` is coerced with `!!`, so absence reads as
`false`; the raw field is modelled as an optional boolean. -/
structure RawCurrentPayload where
  currentTime : Option String
  timeZone : Option RawTimeZone
  isDaytime : Option Bool
  weatherCondition : Option RawWeatherCondition
  temperature : Option RawDegrees
  feelsLikeTemperature : Option RawDegrees
  uvIndex : Option JSNum
  wind : Option RawWind
  thunderstormProbability : Option JSNum
  currentConditionsHistory : Option RawConditionsHistory
  visibility : Option RawVisibility

/-- `getWeatherSummary` from `api.ts`, after the fetch: `resOk` is
`res.ok`; `data` is the decoded body (`none` models a null/undefined
body, rejected by the `!data` check).  A payload without the top-level
`weatherCondition` object is rejected as an invalid response; every
other missing path is default-filled, except `currentTime`, which is
copied verbatim with no default. -/
def getWeatherSummary (resOk : Bool) (data : Option RawCurrentPayload) :
    Except ApiError WeatherSummary :=
  if !resOk then .error .networkError
  else
    match data with
    | none => .error .invalidResponse
    | some d =>
      match d.weatherCondition with
      | none => .error .invalidResponse
      | some wc =>
        let iconUrl : String :=
          match wc.iconBaseUri with
          | some b => if b = "" then "" else b ++ ".png"
          | none => ""
        .ok
          { currentTime := d.currentTime
            timeZone := (d.timeZone.bind (fun t => t.id)).getD "Unknown"
            isDaytime := d.isDaytime.getD false
            weatherCondition :=
              { type := wc.type.getD "UNKNOWN"
                description := (wc.description.bind (fun x => x.text)).getD "Unknown"
                iconUrl := iconUrl }
            temperatureC := (d.temperature.bind (fun x => x.degrees)).getD (.fin 0)
            feelsLikeC := (d.feelsLikeTemperature.bind (fun x => x.degrees)).getD (.fin 0)
            uvIndex := d.uvIndex.getD (.fin 0)
            wind :=
              { directionDegrees :=
                  (d.wind.bind (fun w => w.direction.bind (fun x => x.degrees))).getD (.fin 0)
                directionCardinal :=
                  (d.wind.bind (fun w => w.direction.bind (fun x => x.cardinal))).getD "UNKNOWN"
                speedKph := (d.wind.bind (fun w => w.speed.bind (fun s => s.value))).getD (.fin 0)
                gustKph := (d.wind.bind (fun w => w.gust.bind (fun s => s.value))).getD (.fin 0) }
            thunderstormProbability := d.thunderstormProbability.getD (.fin 0)
            maxTempC :=
              (d.currentConditionsHistory.bind
                (fun h => h.maxTemperature.bind (fun x => x.degrees))).getD (.fin 0)
            minTempC :=
              (d.currentConditionsHistory.bind
                (fun h => h.minTemperature.bind (fun x => x.degrees))).getD (.fin 0)
            visibilityKm := (d.visibility.bind (fun v => v.distance)).getD (.fin 0) }

/-- Raw `interval` object of a forecast day. -/
structure RawInterval where
  startTime : Option String

/-- Raw `displayDate` object of a forecast day. -/
structure RawDisplayDate where
  year : Option JSNum
  month : Option JSNum
  day : Option JSNum

/-- Raw `sunEvents` object of a forecast day. -/
structure RawSunEvents where
  sunriseTime : Option String
  sunsetTime : Option String

/-- Raw `precipitation.probability` object. -/
structure RawPrecipProbability where
  percent : Option JSNum

/-- Raw `precipitation` object. -/
structure RawPrecipitation where
  probability : Option RawPrecipProbability

/-- Raw `daytimeForecast` / `nighttimeForecast` block. -/
structure RawForecastBlock where
  weatherCondition : Option RawWeatherCondition
  uvIndex : Option JSNum
  precipitation : Option RawPrecipitation
  wind : Option RawWind
  cloudCover : Option JSNum
  relativeHumidity : Option JSNum

/-- One raw entry of `forecastDays`. -/
structure RawForecastDay where
  interval : Option RawInterval
  displayDate : Option RawDisplayDate
  maxTemperature : Option RawDegrees
  minTemperature : Option RawDegrees
  feelsLikeMaxTemperature : Option RawDegrees
  feelsLikeMinTemperature : Option RawDegrees
  sunEvents : Option RawSunEvents
  daytimeForecast : Option RawForecastBlock
  nighttimeForecast : Option RawForecastBlock

/-- Raw forecast payload. -/
structure RawForecastPayload where
  timeZone : Option RawTimeZone
  forecastDays : Option (List RawForecastDay)

/-- The `toBlock` helper of `getDailyForecast`: default-fill a
daytime/nighttime block (the icon test uses JS truthiness, so an empty
base URI also yields the empty string). -/
def toBlock (block : Option RawForecastBlock) : DailyBlock :=
  { description :=
      (block.bind (fun b =>
        b.weatherCondition.bind (fun wc => wc.description.bind (fun x => x.text)))).getD "Unknown"
    iconUrl :=
      match block.bind (fun b => b.weatherCondition.bind (fun wc => wc.iconBaseUri)) with
      | some u => if u = "" then "" else u ++ ".png"
      | none => ""
    uvIndex := (block.bind (fun b => b.uvIndex)).getD (.fin 0)
    precipPercent :=
      (block.bind (fun b =>
        b.precipitation.bind (fun p => p.probability.bind (fun pr => pr.percent)))).getD (.fin 0)
    windKph := (block.bind (fun b => b.wind.bind (fun w => w.speed.bind (fun s => s.value)))).getD (.fin 0)
    windGustKph := (block.bind (fun b => b.wind.bind (fun w => w.gust.bind (fun s => s.value)))).getD (.fin 0)
    windDirCardinal :=
      (block.bind (fun b => b.wind.bind (fun w => w.direction.bind (fun x => x.cardinal)))).getD "UNKNOWN"
    windDirDegrees :=
      (block.bind (fun b => b.wind.bind (fun x => x.direction.bind (fun y => y.degrees)))).getD (.fin 0)
    cloudCover := block.bind (fun b => b.cloudCover)
    humidity := block.bind (fun b => b.relativeHumidity) }

/-- The per-day mapping of `getDailyForecast`: `dateISO` is
`d?.interval?.startTime ?? ""`, so a missing start time surfaces as the
empty string and the field is total. -/
def toForecastDay (d : RawForecastDay) : DailyForecast :=
  { dateISO := (d.interval.bind (fun i => i.startTime)).getD ""
    displayDate :=
      { year := (d.displayDate.bind (fun x => x.year)).getD (.fin 0)
        month := (d.displayDate.bind (fun x => x.month)).getD (.fin 0)
        day := (d.displayDate.bind (fun x => x.day)).getD (.fin 0) }
    maxTempC := (d.maxTemperature.bind (fun x => x.degrees)).getD (.fin 0)
    minTempC := (d.minTemperature.bind (fun x => x.degrees)).getD (.fin 0)
    feelsLikeMaxC := d.feelsLikeMaxTemperature.bind (fun x => x.degrees)
    feelsLikeMinC := d.feelsLikeMinTemperature.bind (fun x => x.degrees)
    sunriseTime := d.sunEvents.bind (fun s => s.sunriseTime)
    sunsetTime := d.sunEvents.bind (fun s => s.sunsetTime)
    daytime := toBlock d.daytimeForecast
    nighttime := toBlock d.nighttimeForecast }

/-- `getDailyForecast` from `api.ts`, after the fetch: maps
`data?.forecastDays ?? []` through the per-day normalizer. -/
def getDailyForecast (resOk : Bool) (data : Option RawForecastPayload) :
    Except ApiError (List DailyForecast) :=
  if !resOk then .error .networkError
  else .ok (((data.bind (fun x => x.forecastDays)).getD []).map toForecastDay)

/-- JavaScript `a || b` for an optional string `a`: `a` when present and
truthy (non-empty), otherwise `b`. -/
def jsOrString (a : Option String) (b : String) : String :=
  match a with
  | some s => if s = "" then b else s
  | none => b

/-- `{lat, lng}` pair, used both in the raw geocoding geometry and in
`GeocodeHit.location`. -/
structure LatLng where
  lat : JSNum
  lng : JSNum
deriving DecidableEq

/-- Raw `geometry` object of a geocoding result. -/
structure RawGeometry where
  location : LatLng

/-- One raw entry of the geocoding `results` list. -/
structure RawGeocodeResult where
  formatted_address : String
  place_id : String
  geometry : RawGeometry

/-- Raw geocoding response body. -/
structure RawGeocodeResponse where
  status : Option String
  error_message : Option String
  results : List RawGeocodeResult

/-- `GeocodeHit` from the geocoding module. -/
structure GeocodeHit where
  formatted_address : String
  place_id : String
  location : LatLng
deriving DecidableEq

/-- Errors thrown by `geocode`: a non-success HTTP status, or a
provider-reported non-`"OK"` status carrying the message
`data.error_message || data.status || "Geocoding failed"`. -/
inductive GeocodeError where
  | networkError
  | geocodeFailed (message : String)
deriving DecidableEq

/-- `geocode` from the geocoding module, after the fetch: any status
other than `"OK"` is a failure; on success every result entry is mapped
to a `GeocodeHit` in order. -/
def geocode (resOk : Bool) (data : RawGeocodeResponse) :
    Except GeocodeError (List GeocodeHit) :=
  if !resOk then .error .networkError
  else if data.status ≠ some "OK" then
    .error (.geocodeFailed (jsOrString data.error_message (jsOrString data.status "Geocoding failed")))
  else
    .ok (data.results.map (fun r =>
      { formatted_address := r.formatted_address
        place_id := r.place_id
        location := r.geometry.location }))

/-! ## Lemmas about the aggregation loop -/

lemma jsGt_fin_fin (a b : ℚ) : jsGt (.fin a) (.fin b) = decide (b < a) := rfl

lemma jsGt_fin_ninf (a : ℚ) : jsGt (.fin a) .ninf = true := rfl

lemma jsLt_fin_fin (a b : ℚ) : jsLt (.fin a) (.fin b) = decide (a < b) := rfl

lemma jsLt_fin_inf (a : ℚ) : jsLt (.fin a) .inf = true := rfl

lemma statsStep_def (s : StatsLoopState) (d : DailyForecast) :
    statsStep s d =
      { maxTemp := if jsGt (.fin (dayMaxQ d)) s.maxTemp then .fin (dayMaxQ d) else s.maxTemp
        minTemp := if jsLt (.fin (dayMinQ d)) s.minTemp then .fin (dayMinQ d) else s.minTemp
        avgAccumulator := s.avgAccumulator + dayMidQ d } := rfl

lemma foldl_statsStep_avgAccumulator (xs : List DailyForecast) :
    ∀ s : StatsLoopState,
      (xs.foldl statsStep s).avgAccumulator = s.avgAccumulator + (xs.map dayMidQ).sum := by
  induction xs with
  | nil => intro s; simp
  | cons x xs ih =>
    intro s
    rw [List.foldl_cons, ih, statsStep_def]
    simp only [List.map_cons, List.sum_cons]
    ring

lemma foldl_statsStep_maxTemp (xs : List DailyForecast) :
    ∀ s : StatsLoopState,
      (xs.foldl statsStep s).maxTemp
        = xs.foldl (fun m d => if jsGt (.fin (dayMaxQ d)) m then .fin (dayMaxQ d) else m)
            s.maxTemp := by
  induction xs with
  | nil => intro s; rfl
  | cons x xs ih =>
    intro s
    rw [List.foldl_cons, ih, statsStep_def, List.foldl_cons]

lemma foldl_statsStep_minTemp (xs : List DailyForecast) :
    ∀ s : StatsLoopState,
      (xs.foldl statsStep s).minTemp
        = xs.foldl (fun m d => if jsLt (.fin (dayMinQ d)) m then .fin (dayMinQ d) else m)
            s.minTemp := by
  induction xs with
  | nil => intro s; rfl
  | cons x xs ih =>
    intro s
    rw [List.foldl_cons, ih, statsStep_def, List.foldl_cons]

/-- The running maximum the loop computes over a nonempty list: the fold
of `max` over the substituted daily maxima, seeded with the first day. -/
def runningMax (x : DailyForecast) (xs : List DailyForecast) : ℚ :=
  xs.foldl (fun a d => max a (dayMaxQ d)) (dayMaxQ x)

/-- The running minimum the loop computes over a nonempty list. -/
def runningMin (x : DailyForecast) (xs : List DailyForecast) : ℚ :=
  xs.foldl (fun a d => min a (dayMinQ d)) (dayMinQ x)

lemma foldl_jsmax (xs : List DailyForecast) :
    ∀ m : ℚ,
      xs.foldl (fun a d => if jsGt (.fin (dayMaxQ d)) a then .fin (dayMaxQ d) else a) (.fin m)
        = .fin (xs.foldl (fun a d => max a (dayMaxQ d)) m) := by
  induction xs with
  | nil => intro m; rfl
  | cons x xs ih =>
    intro m
    rw [List.foldl_cons, List.foldl_cons]
    have h : (if jsGt (.fin (dayMaxQ x)) (.fin m) then JSNum.fin (dayMaxQ x) else .fin m)
        = .fin (max m (dayMaxQ x)) := by
      rcases le_or_lt (dayMaxQ x) m with h | h
      · rw [jsGt_fin_fin]; simp [not_lt.mpr h, max_eq_left h]
      · rw [jsGt_fin_fin]; simp [h, max_eq_right h.le]
    rw [h, ih]

lemma foldl_jsmin (xs : List DailyForecast) :
    ∀ m : ℚ,
      xs.foldl (fun a d => if jsLt (.fin (dayMinQ d)) a then .fin (dayMinQ d) else a) (.fin m)
        = .fin (xs.foldl (fun a d => min a (dayMinQ d)) m) := by
  induction xs with
  | nil => intro m; rfl
  | cons x xs ih =>
    intro m
    rw [List.foldl_cons, List.foldl_cons]
    have h : (if jsLt (.fin (dayMinQ x)) (.fin m) then JSNum.fin (dayMinQ x) else .fin m)
        = .fin (min m (dayMinQ x)) := by
      rcases lt_or_le (dayMinQ x) m with h | h
      · rw [jsLt_fin_fin]; simp [h, min_eq_right h.le]
      · rw [jsLt_fin_fin]; simp [not_lt.mpr h, min_eq_left h]
    rw [h, ih]

/-- Unfolding of the aggregator on a bare list, in the exact shape of
the source: empty check, loop fold, single final division, finiteness
guards. -/
lemma stats_list_def (ys : List DailyForecast) :
    computeForecastTemperatureStats (.list ys) =
      if ys.length = 0 then
        { periodDays := 0
          periodStartISO := none
          periodEndISO := none
          minTempC := 0
          maxTempC := 0
          avgTempC := 0 }
      else
        let s := ys.foldl statsStep ⟨.ninf, .inf, 0⟩
        { periodDays := ys.length
          periodStartISO := ys.head?.map (fun d => d.dateISO)
          periodEndISO := ys.getLast?.map (fun d => d.dateISO)
          minTempC := finiteOr0 s.minTemp
          maxTempC := finiteOr0 s.maxTemp
          avgTempC := finiteOr0 (.fin (s.avgAccumulator / (ys.length : ℚ))) } := rfl

lemma stats_list_cons (x : DailyForecast) (xs : List DailyForecast) :
    computeForecastTemperatureStats (.list (x :: xs)) =
      { periodDays := xs.length + 1
        periodStartISO := some x.dateISO
        periodEndISO := ((x :: xs).getLast?).map (fun d => d.dateISO)
        minTempC := runningMin x xs
        maxTempC := runningMax x xs
        avgTempC := ((x :: xs).map dayMidQ).sum / (((x :: xs).length : ℕ) : ℚ) } := by
  have hmax : ((x :: xs).foldl statsStep ⟨.ninf, .inf, 0⟩).maxTemp = .fin (runningMax x xs) := by
    rw [foldl_statsStep_maxTemp, List.foldl_cons]
    simp only [jsGt_fin_ninf, if_true]
    exact foldl_jsmax xs (dayMaxQ x)
  have hmin : ((x :: xs).foldl statsStep ⟨.ninf, .inf, 0⟩).minTemp = .fin (runningMin x xs) := by
    rw [foldl_statsStep_minTemp, List.foldl_cons]
    simp only [jsLt_fin_inf, if_true]
    exact foldl_jsmin xs (dayMinQ x)
  have havg : ((x :: xs).foldl statsStep ⟨.ninf, .inf, 0⟩).avgAccumulator
      = ((x :: xs).map dayMidQ).sum := by
    rw [foldl_statsStep_avgAccumulator]
    simp
  rw [stats_list_def, if_neg (by simp)]
  simp only [hmax, hmin, havg, finiteOr0, List.head?_cons, List.length_cons, Option.map_some']

lemma getLast?_map {α β : Type} (f : α → β) (l : List α) :
    (l.map f).getLast? = l.getLast?.map f := by
  induction l with
  | nil => rfl
  | cons x t ih =>
    cases t with
    | nil => rfl
    | cons y u =>
      rw [List.map_cons, List.map_cons, List.getLast?_cons_cons, ← List.map_cons,
        List.getLast?_cons_cons, ih]

lemma le_foldl_max (xs : List DailyForecast) :
    ∀ a : ℚ, a ≤ xs.foldl (fun b d => max b (dayMaxQ d)) a := by
  induction xs with
  | nil => intro a; simp
  | cons x t ih => intro a; exact le_trans (le_max_left a (dayMaxQ x)) (ih _)

lemma mem_le_foldl_max (xs : List DailyForecast) :
    ∀ (a : ℚ) (d : DailyForecast), d ∈ xs →
      dayMaxQ d ≤ xs.foldl (fun b e => max b (dayMaxQ e)) a := by
  induction xs with
  | nil => intro a d hd; cases hd
  | cons x t ih =>
    intro a d hd
    rcases List.mem_cons.mp hd with rfl | hd
    · exact le_trans (le_max_right a (dayMaxQ d)) (le_foldl_max t _)
    · exact ih _ d hd

lemma foldl_min_le (xs : List DailyForecast) :
    ∀ a : ℚ, xs.foldl (fun b d => min b (dayMinQ d)) a ≤ a := by
  induction xs with
  | nil => intro a; simp
  | cons x t ih => intro a; exact le_trans (ih _) (min_le_left a (dayMinQ x))

lemma foldl_min_le_mem (xs : List DailyForecast) :
    ∀ (a : ℚ) (d : DailyForecast), d ∈ xs →
      xs.foldl (fun b e => min b (dayMinQ e)) a ≤ dayMinQ d := by
  induction xs with
  | nil => intro a d hd; cases hd
  | cons x t ih =>
    intro a d hd
    rcases List.mem_cons.mp hd with rfl | hd
    · exact le_trans (foldl_min_le t _) (min_le_right a (dayMinQ d))
    · exact ih _ d hd

lemma dayMaxQ_le_runningMax (x : DailyForecast) (xs : List DailyForecast) :
    ∀ d ∈ x :: xs, dayMaxQ d ≤ runningMax x xs := by
  intro d hd
  rcases List.mem_cons.mp hd with rfl | hd
  · exact le_foldl_max xs (dayMaxQ d)
  · exact mem_le_foldl_max xs (dayMaxQ x) d hd

lemma runningMin_le_dayMinQ (x : DailyForecast) (xs : List DailyForecast) :
    ∀ d ∈ x :: xs, runningMin x xs ≤ dayMinQ d := by
  intro d hd
  rcases List.mem_cons.mp hd with rfl | hd
  · exact foldl_min_le xs (dayMinQ d)
  · exact foldl_min_le_mem xs (dayMinQ x) d hd

/-- Replacing each day's temperatures by their finiteness-substituted
values (`Number.isFinite(v) ? v : 0`): the aggregator cannot tell the
difference. -/
def sanitizeDay (d : DailyForecast) : DailyForecast :=
  { d with maxTempC := .fin (finiteOr0 d.maxTempC), minTempC := .fin (finiteOr0 d.minTempC) }

lemma dayMaxQ_sanitizeDay (d : DailyForecast) : dayMaxQ (sanitizeDay d) = dayMaxQ d := rfl

lemma dayMinQ_sanitizeDay (d : DailyForecast) : dayMinQ (sanitizeDay d) = dayMinQ d := rfl

lemma dayMidQ_sanitizeDay (d : DailyForecast) : dayMidQ (sanitizeDay d) = dayMidQ d := rfl

lemma dateISO_sanitizeDay (d : DailyForecast) : (sanitizeDay d).dateISO = d.dateISO := rfl

lemma dateISO_comp_sanitizeDay :
    (fun d : DailyForecast => d.dateISO) ∘ sanitizeDay = fun d : DailyForecast => d.dateISO := rfl

lemma dayMidQ_comp_sanitizeDay : dayMidQ ∘ sanitizeDay = dayMidQ := rfl

/-! ## Concrete fixtures used by witnesses and counterexamples -/

/-- The day `{max:20, min:10}` of the spec's examples. -/
def exampleDayA : DailyForecast := mkDay "2025-10-24T07:00:00Z" (.fin 20) (.fin 10)

/-- The day `{max:NaN, min:5}` of the spec's non-finite-tolerance
example. -/
def exampleDayB : DailyForecast := mkDay "2025-10-25T07:00:00Z" .nan (.fin 5)

/-- A second all-finite day, dated before `exampleDayA`. -/
def exampleDayD : DailyForecast := mkDay "2025-10-22T07:00:00Z" (.fin 18) (.fin 12)

/-! ## Claims -/

/-- C1: `computeForecastTemperatureStats` on an empty forecast sequence
(bare list or wrapped container with empty forecast) returns exactly the
sentinel `{periodDays: 0, periodStartISO: null, periodEndISO: null,
minTempC: 0, maxTempC: 0, avgTempC: 0}`, and `periodDays = 0` iff the
input sequence is empty; the sentinel is a returned value, not an
error. -/
theorem claim1_empty_input_sentinel :
    (computeForecastTemperatureStats (.list []) =
      { periodDays := 0, periodStartISO := none, periodEndISO := none,
        minTempC := 0, maxTempC := 0, avgTempC := 0 })
    ∧ (∀ current : WeatherSummary,
        computeForecastTemperatureStats (.wrapped { current := current, forecast := [] }) =
          { periodDays := 0, periodStartISO := none, periodEndISO := none,
            minTempC := 0, maxTempC := 0, avgTempC := 0 })
    ∧ (∀ xs : List DailyForecast,
        (computeForecastTemperatureStats (.list xs)).periodDays = 0 ↔ xs = [])
    ∧ (∀ w : WeatherWithForecast,
        (computeForecastTemperatureStats (.wrapped w)).periodDays = 0 ↔ w.forecast = []) := by
  have hlist : ∀ xs : List DailyForecast,
      (computeForecastTemperatureStats (.list xs)).periodDays = 0 ↔ xs = [] := by
    intro xs
    cases xs with
    | nil => simp [stats_list_def]
    | cons x t => rw [stats_list_cons]; simp
  refine ⟨rfl, fun current => rfl, hlist, fun w => ?_⟩
  obtain ⟨c, f⟩ := w
  exact hlist f

/-- Witness for C1 at concrete inputs: the empty list yields the
sentinel day count and a nonempty list does not. -/
theorem claim1_witness :
    (computeForecastTemperatureStats (.list ([] : List DailyForecast))).periodDays = 0
    ∧ ((computeForecastTemperatureStats (.list [exampleDayA])).periodDays = 0
        ↔ [exampleDayA] = ([] : List DailyForecast)) :=
  ⟨by rw [claim1_empty_input_sentinel.1], claim1_empty_input_sentinel.2.2.1 [exampleDayA]⟩

/-- Evaluation of the aggregator on the spec's non-finite-tolerance
example `[{max:20, min:10}, {max:NaN, min:5}]`. -/
lemma statsExampleAB :
    computeForecastTemperatureStats (.list [exampleDayA, exampleDayB]) =
      { periodDays := 2
        periodStartISO := some "2025-10-24T07:00:00Z"
        periodEndISO := some "2025-10-25T07:00:00Z"
        minTempC := 5
        maxTempC := 20
        avgTempC := 35 / 4 } := by
  rw [stats_list_cons]
  simp [runningMin, runningMax, dayMinQ, dayMaxQ, dayMidQ, exampleDayA, exampleDayB, mkDay,
    finiteOr0]
  norm_num

/-- C2 (counterexample): the claim predicts `minTempC = 0` for the
input `[{max:20, min:10}, {max:NaN, min:5}]`, but both daily minima (10
and 5) are finite, so the code returns `minTempC = 5 ≠ 0`. -/
theorem claim2_counterexample :
    (computeForecastTemperatureStats (.list [exampleDayA, exampleDayB])).minTempC = 5
    ∧ (computeForecastTemperatureStats (.list [exampleDayA, exampleDayB])).maxTempC = 20
    ∧ (computeForecastTemperatureStats (.list [exampleDayA, exampleDayB])).avgTempC = 35 / 4
    ∧ (5 : ℚ) ≠ 0 := by
  rw [statsExampleAB]
  refine ⟨rfl, rfl, rfl, by norm_num⟩

/-- C2 (amended): every day with a non-finite (NaN, infinite, or
absent) `maxTempC`/`minTempC` is counted with that value substituted by
0 — substituting before aggregating changes nothing, and `periodDays`
always equals the input length; on the example input
`[{max:20, min:10}, {max:NaN, min:5}]` this yields `maxTempC = 20`,
`minTempC = 5` (both minima are finite) and `avgTempC = 8.75`. -/
theorem claim2_nonfinite_substitution :
    (∀ xs : List DailyForecast,
      computeForecastTemperatureStats (.list (xs.map sanitizeDay))
        = computeForecastTemperatureStats (.list xs))
    ∧ (∀ xs : List DailyForecast,
        (computeForecastTemperatureStats (.list xs)).periodDays = xs.length)
    ∧ computeForecastTemperatureStats (.list [exampleDayA, exampleDayB]) =
        { periodDays := 2
          periodStartISO := some "2025-10-24T07:00:00Z"
          periodEndISO := some "2025-10-25T07:00:00Z"
          minTempC := 5
          maxTempC := 20
          avgTempC := 35 / 4 } := by
  refine ⟨fun xs => ?_, fun xs => ?_, statsExampleAB⟩
  · cases xs with
    | nil => rfl
    | cons x t =>
      rw [List.map_cons, stats_list_cons, stats_list_cons]
      congr 1
      · simp
      · rw [← List.map_cons, getLast?_map, Option.map_map, dateISO_comp_sanitizeDay]
      · show runningMin (sanitizeDay x) (t.map sanitizeDay) = runningMin x t
        rw [runningMin, List.foldl_map]
        rfl
      · show runningMax (sanitizeDay x) (t.map sanitizeDay) = runningMax x t
        rw [runningMax, List.foldl_map]
        rfl
      · rw [← List.map_cons, List.map_map, dayMidQ_comp_sanitizeDay]
        simp
  · cases xs with
    | nil => rfl
    | cons x t => rw [stats_list_cons]; simp

/-- C3: on every nonempty input, `maxTempC` is the fold of `max` over
the substituted daily maxima (seeded with the first day), `minTempC`
the fold of `min` over the substituted daily minima, and `avgTempC` the
sum of the per-day midpoints `(dayMax+dayMin)/2` divided once by the
day count; a one-day input `{max:20, min:10}` yields
`{periodDays:1, minTempC:10, maxTempC:20, avgTempC:15}` with both
bounds equal to that day's date. -/
theorem claim3_extremes_and_average :
    (∀ (x : DailyForecast) (xs : List DailyForecast),
      (computeForecastTemperatureStats (.list (x :: xs))).maxTempC = runningMax x xs
      ∧ (computeForecastTemperatureStats (.list (x :: xs))).minTempC = runningMin x xs
      ∧ (computeForecastTemperatureStats (.list (x :: xs))).avgTempC
          = ((x :: xs).map dayMidQ).sum / (((x :: xs).length : ℕ) : ℚ))
    ∧ computeForecastTemperatureStats (.list [exampleDayA]) =
        { periodDays := 1
          periodStartISO := some "2025-10-24T07:00:00Z"
          periodEndISO := some "2025-10-24T07:00:00Z"
          minTempC := 10
          maxTempC := 20
          avgTempC := 15 } := by
  refine ⟨fun x xs => ?_, ?_⟩
  · rw [stats_list_cons]
    exact ⟨rfl, rfl, rfl⟩
  · rw [stats_list_cons]
    simp [runningMin, runningMax, dayMinQ, dayMaxQ, dayMidQ, exampleDayA, mkDay, finiteOr0]
    norm_num

/-- C4: on every nonempty input, `periodStartISO` is the first
element's `dateISO` and `periodEndISO` the last element's `dateISO`,
exactly as provided — the aggregator never sorts the input, so this
holds for chronologically unsorted sequences too (the input list here
is arbitrary). -/
theorem claim4_order_preserved (x : DailyForecast) (xs : List DailyForecast) :
    (computeForecastTemperatureStats (.list (x :: xs))).periodStartISO = some x.dateISO
    ∧ (computeForecastTemperatureStats (.list (x :: xs))).periodEndISO
        = some (((x :: xs).getLast (List.cons_ne_nil x xs)).dateISO) := by
  rw [stats_list_cons]
  refine ⟨rfl, ?_⟩
  rw [List.getLast?_eq_getLast_of_ne_nil (List.cons_ne_nil x xs)]
  rfl

/-- C5: the wrapped-container overload unwraps `forecast` and has
semantics identical to the bare-list call. -/
theorem claim5_wrapped_overload (current : WeatherSummary) (xs : List DailyForecast) :
    computeForecastTemperatureStats (.wrapped { current := current, forecast := xs })
      = computeForecastTemperatureStats (.list xs) := rfl

/-- C6: for a nonempty forecast whose days all have finite temperatures
with `minTempC ≤ maxTempC`, the result has `periodDays` equal to the
day count and `minTempC ≤ avgTempC ≤ maxTempC`. -/
theorem claim6_avg_between_extremes (xs : List DailyForecast) (hne : xs ≠ [])
    (hday : ∀ d ∈ xs, d.maxTempC.isFinite = true ∧ d.minTempC.isFinite = true
      ∧ dayMinQ d ≤ dayMaxQ d) :
    (computeForecastTemperatureStats (.list xs)).periodDays = xs.length
    ∧ (computeForecastTemperatureStats (.list xs)).minTempC
        ≤ (computeForecastTemperatureStats (.list xs)).avgTempC
    ∧ (computeForecastTemperatureStats (.list xs)).avgTempC
        ≤ (computeForecastTemperatureStats (.list xs)).maxTempC := by
  cases xs with
  | nil => exact absurd rfl hne
  | cons x t =>
    rw [stats_list_cons]
    refine ⟨by simp, ?_, ?_⟩
    all_goals
      simp only
    · -- lower bound: runningMin ≤ sum of midpoints / count
      have hlb : ∀ y ∈ (x :: t).map dayMidQ, runningMin x t ≤ y := by
        intro y hy
        obtain ⟨d, hd, rfl⟩ := List.mem_map.mp hy
        have h1 : runningMin x t ≤ dayMinQ d := runningMin_le_dayMinQ x t d hd
        have h2 : dayMinQ d ≤ dayMidQ d := by
          have := (hday d hd).2.2
          unfold dayMidQ
          linarith
        exact h1.trans h2
      have hsum := List.card_nsmul_le_sum ((x :: t).map dayMidQ) (runningMin x t) hlb
      rw [List.length_map, nsmul_eq_mul] at hsum
      have hn : (0 : ℚ) < (((x :: t).length : ℕ) : ℚ) := by
        exact_mod_cast Nat.succ_pos t.length
      rw [le_div_iff₀ hn]
      calc runningMin x t * (((x :: t).length : ℕ) : ℚ)
          = (((x :: t).length : ℕ) : ℚ) * runningMin x t := by ring
        _ ≤ ((x :: t).map dayMidQ).sum := hsum
    · -- upper bound: sum of midpoints / count ≤ runningMax
      have hub : ∀ y ∈ (x :: t).map dayMidQ, y ≤ runningMax x t := by
        intro y hy
        obtain ⟨d, hd, rfl⟩ := List.mem_map.mp hy
        have h1 : dayMaxQ d ≤ runningMax x t := dayMaxQ_le_runningMax x t d hd
        have h2 : dayMidQ d ≤ dayMaxQ d := by
          have := (hday d hd).2.2
          unfold dayMidQ
          linarith
        exact h2.trans h1
      have hsum := List.sum_le_card_nsmul ((x :: t).map dayMidQ) (runningMax x t) hub
      rw [List.length_map, nsmul_eq_mul] at hsum
      have hn : (0 : ℚ) < (((x :: t).length : ℕ) : ℚ) := by
        exact_mod_cast Nat.succ_pos t.length
      rw [div_le_iff₀ hn]
      calc ((x :: t).map dayMidQ).sum
          ≤ (((x :: t).length : ℕ) : ℚ) * runningMax x t := hsum
        _ = runningMax x t * (((x :: t).length : ℕ) : ℚ) := by ring

/-- Witness for C6 at the concrete two-day input
`[{max:20, min:10}, {max:18, min:12}]`. -/
theorem claim6_witness :
    ([exampleDayA, exampleDayD] ≠ ([] : List DailyForecast))
    ∧ (∀ d ∈ [exampleDayA, exampleDayD],
        d.maxTempC.isFinite = true ∧ d.minTempC.isFinite = true ∧ dayMinQ d ≤ dayMaxQ d)
    ∧ ((computeForecastTemperatureStats (.list [exampleDayA, exampleDayD])).periodDays
          = [exampleDayA, exampleDayD].length
      ∧ (computeForecastTemperatureStats (.list [exampleDayA, exampleDayD])).minTempC
          ≤ (computeForecastTemperatureStats (.list [exampleDayA, exampleDayD])).avgTempC
      ∧ (computeForecastTemperatureStats (.list [exampleDayA, exampleDayD])).avgTempC
          ≤ (computeForecastTemperatureStats (.list [exampleDayA, exampleDayD])).maxTempC) :=
  ⟨by decide, by decide, claim6_avg_between_extremes [exampleDayA, exampleDayD]
    (by decide) (by decide)⟩

/-- A current-conditions payload carrying only the (empty) condition
object: `currentTime` and every other path are absent. -/
def bareConditionPayload : RawCurrentPayload :=
  { currentTime := none
    timeZone := none
    isDaytime := none
    weatherCondition := some { type := none, description := none, iconBaseUri := none }
    temperature := none
    feelsLikeTemperature := none
    uvIndex := none
    wind := none
    thunderstormProbability := none
    currentConditionsHistory := none
    visibility := none }

/-- A payload whose condition object carries a present-but-empty
`iconBaseUri`. -/
def emptyIconPayload : RawCurrentPayload :=
  { bareConditionPayload with
      weatherCondition := some { type := none, description := none, iconBaseUri := some "" } }

/-- C7: normalization of a successfully fetched current-conditions
payload fails with `InvalidResponse` iff the top-level
`weatherCondition` object is absent (from a null body or a body without
the key); any payload carrying the condition object normalizes to an
`ok` summary; a failed fetch raises the distinct network error
instead. -/
theorem claim7_invalid_response_iff (data : Option RawCurrentPayload) :
    (getWeatherSummary true data = .error .invalidResponse
      ↔ data.bind (fun d => d.weatherCondition) = none)
    ∧ ((data.bind (fun d => d.weatherCondition)).isSome = true →
        ∃ ws, getWeatherSummary true data = .ok ws)
    ∧ getWeatherSummary false data = .error .networkError
    ∧ ApiError.networkError ≠ ApiError.invalidResponse := by
  refine ⟨?_, ?_, rfl, by decide⟩
  · cases data with
    | none => simp [getWeatherSummary]
    | some d =>
      cases h : d.weatherCondition with
      | none => simp [getWeatherSummary, h]
      | some wc => simp [getWeatherSummary, h]
  · cases data with
    | none => intro h; cases h
    | some d =>
      cases h : d.weatherCondition with
      | none => intro hs; simp [h] at hs
      | some wc =>
        intro _
        cases hgw : getWeatherSummary true (some d) with
        | ok ws => exact ⟨ws, rfl⟩
        | error e => simp [getWeatherSummary, h] at hgw

/-- Witness for C7: a payload carrying the condition object normalizes
without raising. -/
theorem claim7_witness :
    ((some bareConditionPayload).bind (fun d => d.weatherCondition)).isSome = true
    ∧ ∃ ws, getWeatherSummary true (some bareConditionPayload) = .ok ws :=
  ⟨rfl, (claim7_invalid_response_iff (some bareConditionPayload)).2.1 rfl⟩

/-- C8 (counterexample): the claim says the normalizer never propagates
null/undefined into any field of the accepted summary and that a
present icon base URI always yields `base + ".png"`; but the code
copies `currentTime` verbatim with no default, so an accepted payload
without `currentTime` produces `undefined` in that field, and a
present-but-empty base URI fails the truthiness test and yields `""`
instead of `".png"`. -/
theorem claim8_counterexample :
    (getWeatherSummary true (some bareConditionPayload)).map (fun ws => ws.currentTime)
        = .ok none
    ∧ (getWeatherSummary true (some emptyIconPayload)).map (fun ws => ws.weatherCondition.iconUrl)
        = .ok ""
    ∧ ("" : String) ≠ "" ++ ".png" := ⟨rfl, rfl, by decide⟩

/-- C8 (amended): for every payload accepted by current-conditions
normalization, every field is populated with the type-appropriate
default when its path is absent (0 for numbers, "Unknown"/"UNKNOWN"
for strings, false for the truthiness-coerced boolean, all-default
wind), and the icon URL is `base + ".png"` when the base URI is present
and non-empty and `""` otherwise — with the sole exception of
`currentTime`, which is copied verbatim and holds `undefined` when
absent. -/
theorem claim8_default_fill (d : RawCurrentPayload) (wc : RawWeatherCondition)
    (h : d.weatherCondition = some wc) :
    ∃ ws, getWeatherSummary true (some d) = .ok ws
    ∧ ws.currentTime = d.currentTime
    ∧ (d.timeZone.bind (fun t => t.id) = none → ws.timeZone = "Unknown")
    ∧ (d.isDaytime = none → ws.isDaytime = false)
    ∧ (∀ b, d.isDaytime = some b → ws.isDaytime = b)
    ∧ (wc.type = none → ws.weatherCondition.type = "UNKNOWN")
    ∧ (wc.description.bind (fun x => x.text) = none → ws.weatherCondition.description = "Unknown")
    ∧ ((wc.iconBaseUri = none ∨ wc.iconBaseUri = some "") → ws.weatherCondition.iconUrl = "")
    ∧ (∀ b, wc.iconBaseUri = some b → b ≠ "" → ws.weatherCondition.iconUrl = b ++ ".png")
    ∧ (d.temperature.bind (fun x => x.degrees) = none → ws.temperatureC = .fin 0)
    ∧ (d.feelsLikeTemperature.bind (fun x => x.degrees) = none → ws.feelsLikeC = .fin 0)
    ∧ (d.uvIndex = none → ws.uvIndex = .fin 0)
    ∧ (d.wind = none →
        ws.wind = { directionDegrees := .fin 0, directionCardinal := "UNKNOWN",
                    speedKph := .fin 0, gustKph := .fin 0 })
    ∧ (d.thunderstormProbability = none → ws.thunderstormProbability = .fin 0)
    ∧ (d.currentConditionsHistory = none → ws.maxTempC = .fin 0 ∧ ws.minTempC = .fin 0)
    ∧ (d.visibility = none → ws.visibilityKm = .fin 0) := by
  have hgw : getWeatherSummary true (some d) = .ok
      { currentTime := d.currentTime
        timeZone := (d.timeZone.bind (fun t => t.id)).getD "Unknown"
        isDaytime := d.isDaytime.getD false
        weatherCondition :=
          { type := wc.type.getD "UNKNOWN"
            description := (wc.description.bind (fun x => x.text)).getD "Unknown"
            iconUrl :=
              match wc.iconBaseUri with
              | some b => if b = "" then "" else b ++ ".png"
              | none => "" }
        temperatureC := (d.temperature.bind (fun x => x.degrees)).getD (.fin 0)
        feelsLikeC := (d.feelsLikeTemperature.bind (fun x => x.degrees)).getD (.fin 0)
        uvIndex := d.uvIndex.getD (.fin 0)
        wind :=
          { directionDegrees :=
              (d.wind.bind (fun w => w.direction.bind (fun x => x.degrees))).getD (.fin 0)
            directionCardinal :=
              (d.wind.bind (fun w => w.direction.bind (fun x => x.cardinal))).getD "UNKNOWN"
            speedKph := (d.wind.bind (fun w => w.speed.bind (fun s => s.value))).getD (.fin 0)
            gustKph := (d.wind.bind (fun w => w.gust.bind (fun s => s.value))).getD (.fin 0) }
        thunderstormProbability := d.thunderstormProbability.getD (.fin 0)
        maxTempC :=
          (d.currentConditionsHistory.bind
            (fun x => x.maxTemperature.bind (fun y => y.degrees))).getD (.fin 0)
        minTempC :=
          (d.currentConditionsHistory.bind
            (fun x => x.minTemperature.bind (fun y => y.degrees))).getD (.fin 0)
        visibilityKm := (d.visibility.bind (fun v => v.distance)).getD (.fin 0) } := by
    simp [getWeatherSummary, h]
  refine ⟨_, hgw, rfl, ?_, ?_, ?_, ?_, ?_, ?_, ?_, ?_, ?_, ?_, ?_, ?_, ?_, ?_⟩
  · intro h'; simp only [h']; rfl
  · intro h'; simp only [h']; rfl
  · intro b hb; simp only [hb]; rfl
  · intro h'; simp only [h']; rfl
  · intro h'; simp only [h']; rfl
  · intro h'
    rcases h' with h' | h'
    · simp only [h']
    · simp only [h']
      rfl
  · intro b hb hne
    simp only [hb]
    simp [hne]
  · intro h'; simp only [h']; rfl
  · intro h'; simp only [h']; rfl
  · intro h'; simp only [h']; rfl
  · intro h'; simp only [h']; rfl
  · intro h'; simp only [h']; rfl
  · intro h'; simp only [h']; exact ⟨rfl, rfl⟩
  · intro h'; simp only [h']; rfl

/-- Witness for C8 at a concrete accepted payload with every optional
path absent: the defaults appear and the verbatim `currentTime` is
`undefined`. -/
theorem claim8_witness :
    bareConditionPayload.weatherCondition
        = some { type := none, description := none, iconBaseUri := none }
    ∧ ∃ ws, getWeatherSummary true (some bareConditionPayload) = .ok ws
      ∧ ws.currentTime = none
      ∧ ws.timeZone = "Unknown"
      ∧ ws.weatherCondition.iconUrl = ""
      ∧ ws.wind = { directionDegrees := .fin 0, directionCardinal := "UNKNOWN",
                    speedKph := .fin 0, gustKph := .fin 0 } := by
  refine ⟨rfl, ?_⟩
  obtain ⟨ws, hok, hct, htz, _, _, _, _, hicon, _, _, _, _, hwind, _, _, _⟩ :=
    claim8_default_fill bareConditionPayload
      { type := none, description := none, iconBaseUri := none } rfl
  exact ⟨ws, hok, hct.trans rfl, htz rfl, hicon (Or.inl rfl), hwind rfl⟩

/-- C9 (counterexample): the claim says a non-`"OK"` response carries
`error_message` whenever that field is present; but the code tests it
with JS truthiness (`||`), so a present-but-empty `error_message` is
skipped and the status code is carried instead. -/
theorem claim9_counterexample :
    geocode true { status := some "ZERO_RESULTS", error_message := some "", results := [] }
        = .error (.geocodeFailed "ZERO_RESULTS")
    ∧ ("ZERO_RESULTS" : String) ≠ "" := ⟨rfl, by decide⟩

/-- C9 (amended): any status other than `"OK"` fails with
`GeocodeFailed`, whose message is the provider's `error_message` when
present and non-empty, else the status code when present and non-empty,
else `"Geocoding failed"`; on status `"OK"` every result entry is
mapped to a `GeocodeHit` in provider order with no filtering. -/
theorem claim9_failure_and_mapping (data : RawGeocodeResponse) :
    (∀ m, data.error_message = some m → m ≠ "" → data.status ≠ some "OK" →
        geocode true data = .error (.geocodeFailed m))
    ∧ (∀ st, data.status = some st → st ≠ "OK" → st ≠ "" →
        (data.error_message = none ∨ data.error_message = some "") →
        geocode true data = .error (.geocodeFailed st))
    ∧ ((data.status = none ∨ data.status = some "") →
        (data.error_message = none ∨ data.error_message = some "") →
        geocode true data = .error (.geocodeFailed "Geocoding failed"))
    ∧ (data.status = some "OK" →
        geocode true data = .ok (data.results.map (fun r =>
          { formatted_address := r.formatted_address
            place_id := r.place_id
            location := r.geometry.location })))
    ∧ ((∃ hits, geocode true data = .ok hits) ↔ data.status = some "OK") := by
  refine ⟨?_, ?_, ?_, ?_, ?_⟩
  · intro m hm hmne hst
    simp [geocode, hst, jsOrString, hm, hmne]
  · intro st hst hstOK hstE hem
    have hne : data.status ≠ some "OK" := by
      rw [hst]
      simp [hstOK]
    rcases hem with hem | hem <;> simp [geocode, hne, jsOrString, hem, hst, hstE, hstOK]
  · intro hst hem
    have hne : data.status ≠ some "OK" := by
      rcases hst with h | h <;> simp [h]
    rcases hst with h | h <;> rcases hem with h2 | h2 <;>
      simp [geocode, hne, jsOrString, h, h2]
  · intro h
    simp [geocode, h]
  · constructor
    · rintro ⟨hits, hh⟩
      by_contra hne
      simp [geocode, hne] at hh
    · intro h
      exact ⟨data.results.map (fun r =>
        { formatted_address := r.formatted_address
          place_id := r.place_id
          location := r.geometry.location }), by simp [geocode, h]⟩

/-- Witness for C9 at the spec's two examples: `ZERO_RESULTS` with no
`error_message` carries `"ZERO_RESULTS"`; `OVER_QUERY_LIMIT` with
`error_message = "quota"` carries `"quota"`. -/
theorem claim9_witness :
    geocode true { status := some "ZERO_RESULTS", error_message := none, results := [] }
        = .error (.geocodeFailed "ZERO_RESULTS")
    ∧ geocode true { status := some "OVER_QUERY_LIMIT", error_message := some "quota", results := [] }
        = .error (.geocodeFailed "quota") :=
  ⟨(claim9_failure_and_mapping _).2.1 "ZERO_RESULTS" rfl (by decide) (by decide) (Or.inl rfl),
   (claim9_failure_and_mapping _).1 "quota" rfl (by decide) (by decide)⟩

/-- A raw forecast day with every path absent, in particular no
`interval`. -/
def emptyRawForecastDay : RawForecastDay :=
  { interval := none
    displayDate := none
    maxTemperature := none
    minTemperature := none
    feelsLikeMaxTemperature := none
    feelsLikeMinTemperature := none
    sunEvents := none
    daytimeForecast := none
    nighttimeForecast := none }

/-- C10: on every nonempty input the aggregator's `periodStartISO` and
`periodEndISO` are non-null — the null fallbacks are unreachable
because `DailyForecast.dateISO` is a total string field; the forecast
normalizer substitutes the empty string when `interval.startTime` is
absent, so an unavailable date surfaces as `""`, never as null. -/
theorem claim10_bounds_never_null :
    (∀ (x : DailyForecast) (xs : List DailyForecast),
      (computeForecastTemperatureStats (.list (x :: xs))).periodStartISO.isSome = true
      ∧ (computeForecastTemperatureStats (.list (x :: xs))).periodEndISO.isSome = true)
    ∧ (∀ d : RawForecastDay, d.interval.bind (fun i => i.startTime) = none →
        (toForecastDay d).dateISO = "") := by
  constructor
  · intro x xs
    rw [stats_list_cons]
    refine ⟨rfl, ?_⟩
    rw [List.getLast?_eq_getLast_of_ne_nil (List.cons_ne_nil x xs)]
    rfl
  · intro d h
    simp [toForecastDay, h]

/-- Witness for C10: a raw day with no interval normalizes to
`dateISO = ""`, and aggregating the resulting one-day list still
produces `some` bounds. -/
theorem claim10_witness :
    emptyRawForecastDay.interval.bind (fun i => i.startTime) = none
    ∧ (toForecastDay emptyRawForecastDay).dateISO = ""
    ∧ (computeForecastTemperatureStats
        (.list [toForecastDay emptyRawForecastDay])).periodStartISO.isSome = true :=
  ⟨rfl, claim10_bounds_never_null.2 emptyRawForecastDay rfl,
    (claim10_bounds_never_null.1 (toForecastDay emptyRawForecastDay) []).1⟩

end WeatherApp
